import Mathlib

/-!
Shallow embedding of the fetch-and-persist pipeline of the
`my-apartement` repository (`src/get_list.py` and `src/get_detail.py`).

The HTTP endpoints are modelled as oracles: the list endpoint is a
function from page number to an optional response body (`none` models a
request failure, a non-2xx status, a JSON decode failure, or a body
lacking the expected keys — everything the `try/except` around
`requests.get` collapses into `None`, together with the
`'response' not in first_page` check), and the detail endpoint is a
function from a complex identifier to an optional record.

CSV files are modelled as lists of lines, each line a list of cells, so
that header lines and data lines appear in the model exactly as the
Python `csv` module writes them.
-/

namespace AptCrawl

/-! ## List fetcher (`src/get_list.py`) -/

/-- One successful response of the list endpoint, as `main` consumes it:
`totalCount = body.get('totalCount', 0)` and the normalised `items`
list (the singleton-dict wrapping of `items` is already unwrapped by the
`isinstance(items, dict)` branch, so the model receives a plain list). -/
structure ListBody (α : Type) where
  totalCount : Nat
  items : List α
  deriving Repr, DecidableEq

/-- The `while len(all_items) < total_count` loop of `get_list.main`,
lines 60-76.  `pageNo` and `reqs` mirror `page_no` and the number of
requests issued so far.  The loop consumes pages only while
`acc.length < totalCount` and each consumed page is non-empty, so at
most `totalCount` recursive steps can occur; the recursion is therefore
driven by a `fuel` counter initialised to `totalCount`, and when fuel
runs out `acc.length ≥ totalCount` already holds, making the fuel-zero
branch identical to the loop-exit branch (see `listLoopF_fuel_succ`). -/
def listLoopF (resp : Nat → Option (ListBody α)) (totalCount : Nat) :
    Nat → Nat → List α → Nat → List α × Nat
  | 0, _, acc, reqs => (acc, reqs)
  | fuel + 1, pageNo, acc, reqs =>
    if acc.length < totalCount then
      match resp (pageNo + 1) with
      | none => (acc, reqs + 1)
      | some b =>
        if b.items.isEmpty then (acc, reqs + 1)
        else listLoopF resp totalCount fuel (pageNo + 1) (acc ++ b.items) (reqs + 1)
    else (acc, reqs)

/-- Observable outcome of one run of `get_list.main`: number of endpoint
requests issued, the accumulated `all_items`, and whether the
`if all_items:` branch wrote the output file. -/
structure ListRunResult (α : Type) where
  requests : Nat
  fetched : List α
  wrote : Bool
  deriving Repr, DecidableEq

/-- `get_list.main`: fetch page 1; on failure (or a body without
`'response'`) return without writing; otherwise read `totalCount` and
the first page's items, run the paging loop, and write the file exactly
when `all_items` is non-empty. -/
def getListMain (resp : Nat → Option (ListBody α)) : ListRunResult α :=
  match resp 1 with
  | none => { requests := 1, fetched := [], wrote := false }
  | some body =>
    let res := listLoopF resp body.totalCount body.totalCount 1 body.items 1
    { requests := res.2, fetched := res.1, wrote := !res.1.isEmpty }

/-- State of `apt_list.csv` after a run: overwritten with exactly the
fetched records when the run wrote, untouched otherwise
(`get_list.main` lines 81-92). -/
def listFileAfter (prev : Option (List α)) (resp : Nat → Option (ListBody α)) :
    Option (List α) :=
  let r := getListMain resp
  if r.wrote then some r.fetched else prev

/-- Number of records the endpoint returned on page `n` (0 for a failed
page). -/
def pageLen (resp : Nat → Option (ListBody α)) (n : Nat) : Nat :=
  match resp n with
  | none => 0
  | some b => b.items.length

/-- Total number of records returned by the endpoint across pages
`1 .. k`. -/
def returnedCount (resp : Nat → Option (ListBody α)) (k : Nat) : Nat :=
  ((List.range k).map (fun i => pageLen resp (i + 1))).sum

/-- Fuel adequacy: once `fuel ≥ totalCount - acc.length`, adding more
fuel does not change the result, so `listLoopF` with fuel `totalCount`
computes the limit of the Python `while` loop. -/
theorem listLoopF_fuel_succ (resp : Nat → Option (ListBody α)) (totalCount : Nat) :
    ∀ fuel pageNo acc reqs, totalCount - acc.length ≤ fuel →
      listLoopF resp totalCount (fuel + 1) pageNo acc reqs =
        listLoopF resp totalCount fuel pageNo acc reqs := by
  intro fuel
  induction fuel with
  | zero =>
    intro pageNo acc reqs h
    have hge : totalCount ≤ acc.length := by omega
    simp [listLoopF, Nat.not_lt.mpr hge]
  | succ n ih =>
    intro pageNo acc reqs h
    by_cases hlt : acc.length < totalCount
    · rw [listLoopF, listLoopF, if_pos hlt, if_pos hlt]
      cases hr : resp (pageNo + 1) with
      | none => rfl
      | some b =>
        by_cases he : b.items.isEmpty
        · simp [he]
        · have hee : b.items.isEmpty = false := by simpa using he
          have hne : b.items ≠ [] := by
            intro hnil
            rw [hnil] at hee
            simp at hee
          have hlen : 1 ≤ b.items.length := List.length_pos.mpr hne
          simp only [hee, Bool.false_eq_true, if_false]
          exact ih (pageNo + 1) (acc ++ b.items) (reqs + 1)
            (by simp only [List.length_append]; omega)
    · rw [listLoopF, listLoopF, if_neg hlt, if_neg hlt]

theorem returnedCount_succ (resp : Nat → Option (ListBody α)) (k : Nat) :
    returnedCount resp (k + 1) = returnedCount resp k + pageLen resp (k + 1) := by
  simp [returnedCount, List.range_succ]

/-- Loop invariant of the paging loop: every record the endpoint has
returned on the pages requested so far sits in the accumulator, so the
final accumulator length equals the record count returned across all
requested pages. -/
theorem listLoopF_returned (resp : Nat → Option (ListBody α)) (total : Nat) :
    ∀ fuel pageNo acc reqs, pageNo = reqs →
      acc.length = returnedCount resp reqs →
      ((listLoopF resp total fuel pageNo acc reqs).1).length
        = returnedCount resp (listLoopF resp total fuel pageNo acc reqs).2 := by
  intro fuel
  induction fuel with
  | zero =>
    intro pageNo acc reqs hp hl
    simpa [listLoopF] using hl
  | succ n ih =>
    intro pageNo acc reqs hp hl
    rw [listLoopF]
    by_cases hlt : acc.length < total
    · rw [if_pos hlt]
      cases hr : resp (pageNo + 1) with
      | none =>
        rw [hp] at hr
        simp [returnedCount_succ, pageLen, hr, hl]
      | some b =>
        by_cases he : b.items.isEmpty
        · have hnil : b.items = [] := by simpa using he
          rw [hp] at hr
          simp [he, returnedCount_succ, pageLen, hr, hnil, hl]
        · have hee : b.items.isEmpty = false := by simpa using he
          simp only [hee, Bool.false_eq_true, if_false]
          apply ih (pageNo + 1) (acc ++ b.items) (reqs + 1) (by omega)
          rw [hp] at hr
          simp [returnedCount_succ, pageLen, hr, hl]
    · rw [if_neg hlt]
      exact hl

/-- C3 (amended): the list fetcher's output row count equals the number
of records actually returned across all requested pages; whenever the
accumulated count never exceeds the declared total (no overshooting
page), this equals the minimum of the declared total and that number. -/
theorem getListMain_row_count (resp : Nat → Option (ListBody α)) (body : ListBody α)
    (h1 : resp 1 = some body) :
    (getListMain resp).fetched.length
      = returnedCount resp (getListMain resp).requests ∧
    ((getListMain resp).fetched.length ≤ body.totalCount →
      (getListMain resp).fetched.length
        = min body.totalCount (returnedCount resp (getListMain resp).requests)) := by
  have hbase : body.items.length = returnedCount resp 1 := by
    have hr1 : List.range 1 = [0] := rfl
    simp [returnedCount, pageLen, hr1, h1]
  have hinv := listLoopF_returned resp body.totalCount body.totalCount 1 body.items 1 rfl hbase
  have heq : (getListMain resp).fetched.length
      = returnedCount resp (getListMain resp).requests := by
    simpa [getListMain, h1] using hinv
  refine ⟨heq, fun hle => ?_⟩
  omega

def respW : Nat → Option (ListBody Nat)
  | 1 => some ⟨1, [7]⟩
  | _ => none

theorem getListMain_row_count_witness :
    (getListMain respW).fetched.length
      = min 1 (returnedCount respW (getListMain respW).requests) :=
  (getListMain_row_count respW ⟨1, [7]⟩ (by decide)).2 (by decide)

def respC3 : Nat → Option (ListBody Nat)
  | 1 => some ⟨1, [0, 1]⟩
  | _ => none

/-- C3 (counterexample): with a declared total of 1 and a first page
returning 2 records, the fetcher writes 2 rows while the claimed
minimum is 1 — the loop appends every returned record even past the
declared total. -/
theorem getListMain_row_count_min_counterexample :
    ¬ ((getListMain respC3).fetched.length
        = min 1 (returnedCount respC3 (getListMain respC3).requests)) := by
  decide

def resp4 : Nat → Option (ListBody Nat)
  | 1 => some ⟨250, List.replicate 100 0⟩
  | 2 => some ⟨250, List.replicate 100 0⟩
  | 3 => some ⟨250, List.replicate 50 0⟩
  | _ => none

set_option maxRecDepth 20000 in
/-- C4: with declared total 250 and pages of 100, 100 and 50 records,
the list fetcher issues exactly 3 page requests and writes exactly
250 rows. -/
theorem getListMain_three_pages :
    (getListMain resp4).requests = 3 ∧ (getListMain resp4).fetched.length = 250 ∧
      (getListMain resp4).wrote = true := by
  decide

theorem getListMain_wrote (resp : Nat → Option (ListBody α)) :
    (getListMain resp).wrote = !(getListMain resp).fetched.isEmpty := by
  cases h : resp 1 with
  | none => simp [getListMain, h]
  | some b => simp [getListMain, h]

/-- C7: if the run accumulates zero records, no file is written and the
previous `apt_list.csv` is left unchanged; if it accumulates at least
one record, the file is fully overwritten with exactly the fetched
records. -/
theorem listFileAfter_frame (resp : Nat → Option (ListBody α)) (prev : Option (List α)) :
    ((getListMain resp).fetched = [] → listFileAfter prev resp = prev) ∧
    ((getListMain resp).fetched ≠ [] →
      listFileAfter prev resp = some (getListMain resp).fetched) := by
  constructor
  · intro h
    simp [listFileAfter, getListMain_wrote, h]
  · intro h
    simp [listFileAfter, getListMain_wrote, List.isEmpty_iff, h]

theorem listFileAfter_frame_witness :
    listFileAfter (some [9]) respW = some (getListMain respW).fetched :=
  (listFileAfter_frame respW (some [9])).2 (by decide)

/-! ## Detail fetcher (`src/get_detail.py`) -/

/-- A detail record as returned by the endpoint: the item's key/value
pairs in insertion order (a Python `dict`). -/
abbrev DRecord := List (String × String)

/-- A CSV file as a list of lines, each line a list of cells, exactly as
the `csv` module writes them (a header line is just a line whose cells
are the field names). -/
abbrev CsvFile := List (List String)

/-- `list(detail.keys())`, `get_detail.main` line 100. -/
def recordKeys (r : DRecord) : List String := r.map Prod.fst

/-- The cells `csv.DictWriter._dict_to_list` produces for a row: one
cell per field name, `rowdict.get(key, restval)` with the default
`restval=None` rendered as an empty cell. -/
def writeRowCells (fieldnames : List String) (r : DRecord) : List String :=
  fieldnames.map (fun k => ((r.lookup k).getD ""))

/-- `csv.DictWriter` with `extrasaction='raise'` (the default) raises
`ValueError` exactly when the row dict has a key outside the field
names. -/
def rowHasExtraField (fieldnames : List String) (r : DRecord) : Bool :=
  r.any (fun kv => !(fieldnames.contains kv.1))

/-- `writer.writerow(detail)` under the `try/except ValueError`,
`get_detail.main` lines 110-115: `none` means the row raised and was
dropped, `some cells` the line appended to the file. -/
def tryWriteRow (fieldnames : List String) (r : DRecord) : Option (List String) :=
  if rowHasExtraField fieldnames r then none else some (writeRowCells fieldnames r)

/-- Reading the processed `kaptCode` set with `csv.DictReader`,
`get_detail.main` lines 56-60.  The first line of the file is taken as
the field names; each following line becomes a dict pairing field names
with cells (truncating at the shorter of the two, which mirrors missing
cells reading as the `None` restval: such a `None` entry in the Python
set can never equal a real identifier string, so it is dropped here).
`none` models the uncaught `KeyError` from `row['kaptCode']` when the
header lacks a `kaptCode` column while data rows are present. -/
def readProcessed : CsvFile → Option (List String)
  | [] => some []
  | header :: dataRows =>
    if "kaptCode" ∈ header ∨ dataRows = [] then
      some (dataRows.filterMap (fun cells => (header.zip cells).lookup "kaptCode"))
    else none

/-- Skip-list of an optional `apt_detail.csv`: a missing file yields the
empty set (`processed_codes = set()` untouched). -/
def processedOf (st : Option CsvFile) : Option (List String) :=
  match st with
  | none => some []
  | some f => readProcessed f

/-- `apt_list = apt_list[:args.limit]` guarded by `if args.limit:`,
`get_detail.main` lines 74-77 — note a limit of 0 is falsy in Python,
so it does not truncate. -/
def applyLimit (limit : Option Nat) (l : List α) : List α :=
  match limit with
  | none => l
  | some n => if n = 0 then l else l.take n

/-- What the fetch loop appends to the open output file. -/
structure LoopOut where
  lines : CsvFile
  wroteHeader : Bool
  deriving Repr, DecidableEq

/-- The `for i, apt in enumerate(apt_list):` loop of `get_detail.main`,
lines 89-118.  `writer` is `None` until the first successful fetch, at
which point the field names are fixed from that record's keys and the
header line is written only when the output file did not pre-exist.
A failed fetch (`None`) and an empty item (falsy dict) write nothing. -/
def detailLoop (fetch : String → Option DRecord) (fileExists : Bool) :
    List String → Option (List String) → LoopOut
  | [], _ => { lines := [], wroteHeader := false }
  | code :: rest, writer =>
    match fetch code with
    | none => detailLoop fetch fileExists rest writer
    | some r =>
      if r.isEmpty then detailLoop fetch fileExists rest writer
      else
        match writer with
        | some fieldnames =>
          let tail := detailLoop fetch fileExists rest (some fieldnames)
          match tryWriteRow fieldnames r with
          | none => tail
          | some cells => { lines := cells :: tail.lines, wroteHeader := tail.wroteHeader }
        | none =>
          let fieldnames := recordKeys r
          let headerLines : CsvFile := if fileExists then [] else [fieldnames]
          let tail := detailLoop fetch fileExists rest (some fieldnames)
          match tryWriteRow fieldnames r with
          | none =>
            { lines := headerLines ++ tail.lines,
              wroteHeader := !fileExists || tail.wroteHeader }
          | some cells =>
            { lines := headerLines ++ cells :: tail.lines,
              wroteHeader := !fileExists || tail.wroteHeader }

/-- Observable outcome of one run of `get_detail.main`. -/
structure DetailResult where
  file : Option CsvFile
  attempted : List String
  fatalMissingInput : Bool
  crashed : Bool
  openedOutput : Bool
  wroteHeader : Bool
  deriving Repr, DecidableEq

/-- `get_detail.main`: abort when `apt_list.csv` is missing; read the
skip-list from `apt_detail.csv` (an uncaught `KeyError` there crashes
the run with no writes); filter the list down to unprocessed
identifiers; return before opening the output when none remain; apply
the `--limit` flag; otherwise open the output (append when it existed,
write — creating it — when it did not) and run the fetch loop. -/
def getDetailMain (fetch : String → Option DRecord) (limit : Option Nat)
    (aptList : Option (List String)) (st : Option CsvFile) : DetailResult :=
  match aptList with
  | none =>
    { file := st, attempted := [], fatalMissingInput := true, crashed := false,
      openedOutput := false, wroteHeader := false }
  | some codes =>
    match processedOf st with
    | none =>
      { file := st, attempted := [], fatalMissingInput := false, crashed := true,
        openedOutput := false, wroteHeader := false }
    | some processed =>
      let unprocessed := codes.filter (fun c => !(processed.contains c))
      if unprocessed.isEmpty then
        { file := st, attempted := [], fatalMissingInput := false, crashed := false,
          openedOutput := false, wroteHeader := false }
      else
        let toFetch := applyLimit limit unprocessed
        let out := detailLoop fetch st.isSome toFetch none
        { file := some (st.getD [] ++ out.lines), attempted := toFetch,
          fatalMissingInput := false, crashed := false,
          openedOutput := true, wroteHeader := out.wroteHeader }

/-- The complex identifiers present in an optional `apt_detail.csv`, as
the code itself parses them (empty when the file is missing or its
parse raises). -/
def codesIn (f : Option CsvFile) : List String :=
  match f with
  | none => []
  | some file => (readProcessed file).getD []

/-- Appending lines to a file whose parse succeeded can only grow the
set of identifiers it parses to. -/
theorem readProcessed_append (f extra : CsvFile) (procs : List String)
    (h : readProcessed f = some procs) :
    ∀ c ∈ procs, c ∈ (readProcessed (f ++ extra)).getD [] := by
  intro c hc
  cases f with
  | nil =>
    rw [readProcessed] at h
    cases h
    cases hc
  | cons header rows =>
    rw [readProcessed] at h
    by_cases hcond : "kaptCode" ∈ header ∨ rows = []
    · rw [if_pos hcond] at h
      have hprocs := Option.some.inj h
      by_cases hk : "kaptCode" ∈ header
      · rw [List.cons_append, readProcessed, if_pos (Or.inl hk)]
        rw [Option.getD_some, List.filterMap_append]
        exact List.mem_append_left _ (hprocs ▸ hc)
      · have hrows : rows = [] := hcond.resolve_left hk
        rw [← hprocs, hrows] at hc
        cases hc
    · rw [if_neg hcond] at h
      cases h

/-- C1: the set of `kaptCode` values present in `apt_detail.csv` after a
detail-fetcher run is a superset of the set present before it — the
fetcher only appends lines (or leaves the file untouched), never
removes or rewrites existing ones. -/
theorem getDetailMain_codes_superset (fetch : String → Option DRecord)
    (limit : Option Nat) (aptList : Option (List String)) (st : Option CsvFile)
    (c : String) (hc : c ∈ codesIn st) :
    c ∈ codesIn (getDetailMain fetch limit aptList st).file := by
  cases aptList with
  | none => simpa [getDetailMain] using hc
  | some codes =>
    rw [getDetailMain]
    cases hp : processedOf st with
    | none => simpa using hc
    | some processed =>
      simp only
      by_cases hemp : (codes.filter (fun x => !(processed.contains x))).isEmpty
      · simp only [hemp, if_true]
        exact hc
      · have hee : (codes.filter (fun x => !(processed.contains x))).isEmpty = false := by
          simpa using hemp
        simp only [hee, Bool.false_eq_true, if_false]
        cases st with
        | none =>
          cases hc
        | some f =>
          have hrp : readProcessed f = some processed := hp
          have hcp : c ∈ processed := by
            simpa [codesIn, hrp] using hc
          simpa [codesIn, Option.getD_some] using
            readProcessed_append f _ processed hrp c hcp

def fetchW : String → Option DRecord :=
  fun c => if c = "Y" then some [("kaptCode", "Y")] else none

theorem getDetailMain_codes_superset_witness :
    "Z" ∈ codesIn (getDetailMain fetchW none (some ["Y"])
        (some [["kaptCode"], ["Z"]])).file :=
  getDetailMain_codes_superset fetchW none (some ["Y"]) (some [["kaptCode"], ["Z"]])
    "Z" (by decide)

/-- C2: when every identifier of `apt_list.csv` already appears in
`apt_detail.csv`, the run attempts nothing, never opens the output for
writing, and leaves the file identical. -/
theorem getDetailMain_already_complete (fetch : String → Option DRecord)
    (limit : Option Nat) (codes : List String) (st : Option CsvFile)
    (procs : List String) (hp : processedOf st = some procs)
    (hall : ∀ c ∈ codes, c ∈ procs) :
    (getDetailMain fetch limit (some codes) st).file = st ∧
    (getDetailMain fetch limit (some codes) st).attempted = [] ∧
    (getDetailMain fetch limit (some codes) st).openedOutput = false := by
  have hfilter : codes.filter (fun c => !(procs.contains c)) = [] := by
    rw [List.filter_eq_nil_iff]
    intro a ha
    simp only [Bool.not_eq_true', Bool.not_eq_false]
    exact List.elem_iff.mpr (hall a ha)
  refine ⟨?_, ?_, ?_⟩ <;>
    · simp [getDetailMain, hp, hfilter, hall]
      rw [if_pos hall]

theorem getDetailMain_already_complete_witness :
    (getDetailMain (fun _ => none) none (some ["A"]) (some [["kaptCode"], ["A"]])).file
        = some [["kaptCode"], ["A"]] ∧
    (getDetailMain (fun _ => none) none (some ["A"]) (some [["kaptCode"], ["A"]])).attempted
        = [] ∧
    (getDetailMain (fun _ => none) none (some ["A"]) (some [["kaptCode"], ["A"]])).openedOutput
        = false :=
  getDetailMain_already_complete (fun _ => none) none ["A"] (some [["kaptCode"], ["A"]])
    ["A"] (by decide) (by decide)

def fetchC5 : String → Option DRecord :=
  fun c =>
    if c = "P" then some [("a", "1"), ("b", "2")]
    else if c = "Q" then some [("a", "3")]
    else none

/-- C5 (counterexample): the first success fixes the header `a,b`; the
second record's field set `a` differs from that header, yet its row is
written (padded with an empty cell) instead of being excluded —
`csv.DictWriter` raises only for extra fields, not missing ones. -/
theorem detailLoop_fixed_schema_counterexample :
    (getDetailMain fetchC5 none (some ["P", "Q"]) none).file
      = some [["a", "b"], ["1", "2"], ["3", ""]] := by
  decide

/-- C5 (amended): the column set is fixed from the first successfully
fetched record of the run; a later successful record is silently
dropped — with the run continuing — exactly when it has a field outside
that fixed header, while a record whose fields are a subset of the
header is written with missing fields as empty cells. -/
theorem detailLoop_fixed_schema (fetch : String → Option DRecord) (fileExists : Bool)
    (code : String) (rest : List String) (fieldnames : List String) (r : DRecord)
    (hf : fetch code = some r) (hne : r ≠ []) :
    detailLoop fetch fileExists (code :: rest) (some fieldnames) =
      (if rowHasExtraField fieldnames r then
        detailLoop fetch fileExists rest (some fieldnames)
      else
        { lines := writeRowCells fieldnames r
              :: (detailLoop fetch fileExists rest (some fieldnames)).lines,
          wroteHeader := (detailLoop fetch fileExists rest (some fieldnames)).wroteHeader }) := by
  have hemp : r.isEmpty = false := by
    cases r with
    | nil => exact absurd rfl hne
    | cons a l => rfl
  simp only [detailLoop, hf, hemp, Bool.false_eq_true, if_false]
  by_cases hx : rowHasExtraField fieldnames r
  · simp [tryWriteRow, hx]
  · have hxf : rowHasExtraField fieldnames r = false := by simpa using hx
    simp [tryWriteRow, hxf]

def fetchC5w : String → Option DRecord := fun _ => some [("c", "9")]

theorem detailLoop_fixed_schema_witness :
    detailLoop fetchC5w true ["X"] (some ["a"]) =
      (if rowHasExtraField ["a"] [("c", "9")] then
        detailLoop fetchC5w true [] (some ["a"])
      else
        { lines := writeRowCells ["a"] [("c", "9")]
              :: (detailLoop fetchC5w true [] (some ["a"])).lines,
          wroteHeader := (detailLoop fetchC5w true [] (some ["a"])).wroteHeader }) :=
  detailLoop_fixed_schema fetchC5w true "X" [] ["a"] [("c", "9")] rfl (by decide)

def fetchC6 : String → Option DRecord :=
  fun c => if c = "A2" then some [("kaptCode", "A2"), ("f", "v")] else none

/-- C6: with a detail endpoint failing for "A1" and succeeding for
"A2", the output file afterwards holds a row for "A2" and none for
"A1", and the next run's attempted set is exactly ["A1"] — a failed
identifier never enters the skip-list and is retried only on the next
full run. -/
theorem getDetailMain_failed_retry :
    codesIn (getDetailMain fetchC6 none (some ["A1", "A2"]) none).file = ["A2"] ∧
    (getDetailMain fetchC6 none (some ["A1", "A2"])
        (getDetailMain fetchC6 none (some ["A1", "A2"]) none).file).attempted
      = ["A1"] := by
  decide

/-- C8 (counterexample): `--limit 0` is falsy in Python, so the
truncation is skipped and one identifier is attempted although the
claim allows at most 0. -/
theorem getDetailMain_limit_counterexample :
    ¬ ((getDetailMain (fun _ => none) (some 0) (some ["A"]) none).attempted.length ≤ 0) := by
  decide

/-- C8 (amended): for every positive `n` passed to `--limit` the run
attempts at most `n` unprocessed identifiers; with the flag absent all
unprocessed identifiers are attempted (a limit of 0 is ignored and also
attempts all, see the counterexample). -/
theorem getDetailMain_limit (fetch : String → Option DRecord) (codes : List String)
    (st : Option CsvFile) (n : Nat) (procs : List String)
    (hp : processedOf st = some procs) :
    (0 < n → (getDetailMain fetch (some n) (some codes) st).attempted.length ≤ n) ∧
    (getDetailMain fetch none (some codes) st).attempted
      = codes.filter (fun c => !(procs.contains c)) := by
  constructor
  · intro hn
    simp only [getDetailMain, hp]
    by_cases hemp : (codes.filter (fun x => !(procs.contains x))).isEmpty
    · rw [if_pos hemp]
      simp
    · rw [if_neg hemp]
      have hn0 : n ≠ 0 := by omega
      dsimp only
      rw [applyLimit, if_neg hn0]
      simp only [List.length_take]
      omega
  · simp only [getDetailMain, hp]
    by_cases hemp : (codes.filter (fun x => !(procs.contains x))).isEmpty
    · rw [if_pos hemp]
      have hnil : codes.filter (fun x => !(procs.contains x)) = [] := by
        simpa [List.isEmpty_iff] using hemp
      dsimp only
      exact hnil.symm
    · rw [if_neg hemp]
      rfl

theorem getDetailMain_limit_witness :
    (getDetailMain (fun _ => none) (some 1) (some ["A", "B"]) none).attempted.length ≤ 1 :=
  (getDetailMain_limit (fun _ => none) ["A", "B"] none 1 [] rfl).1 (by decide)

/-- C9 (counterexample): with `apt_list.csv` present but an existing
`apt_detail.csv` whose header lacks a `kaptCode` column, the run dies
on an uncaught `KeyError` from `row['kaptCode']` — a process-level
fatal error that is not a missing required input file. -/
theorem getDetailMain_fatal_counterexample :
    (getDetailMain (fun _ => none) none (some ["A"]) (some [["a"], ["x"]])).crashed
        = true ∧
    (getDetailMain (fun _ => none) none (some ["A"]) (some [["a"], ["x"]])).fatalMissingInput
        = false := by
  decide

/-- C9 (amended): a missing `apt_list.csv` aborts the run immediately
with no file writes and without opening the output; fetch failures
never escalate (the crash flag is independent of the fetch oracle), and
the run crashes exactly when the input list is present but the existing
`apt_detail.csv` fails to parse with an uncaught `KeyError`. -/
theorem getDetailMain_fatal (fetch : String → Option DRecord) (limit : Option Nat)
    (aptList : Option (List String)) (st : Option CsvFile) :
    (aptList = none →
      (getDetailMain fetch limit aptList st).fatalMissingInput = true ∧
      (getDetailMain fetch limit aptList st).file = st ∧
      (getDetailMain fetch limit aptList st).openedOutput = false) ∧
    ((getDetailMain fetch limit aptList st).crashed = true ↔
      (aptList ≠ none ∧ processedOf st = none)) := by
  constructor
  · rintro rfl
    exact ⟨rfl, rfl, rfl⟩
  · cases aptList with
    | none => simp [getDetailMain]
    | some codes =>
      cases hp : processedOf st with
      | none => simp [getDetailMain, hp]
      | some procs =>
        have hcr : (getDetailMain fetch limit (some codes) st).crashed = false := by
          simp only [getDetailMain, hp]
          split <;> rfl
        rw [hcr]
        simp [hp]

theorem getDetailMain_fatal_witness :
    (getDetailMain (fun _ => none) none none (some [])).fatalMissingInput = true ∧
    (getDetailMain (fun _ => none) none none (some [])).file = some [] ∧
    (getDetailMain (fun _ => none) none none (some [])).openedOutput = false :=
  (getDetailMain_fatal (fun _ => none) none none (some [])).1 rfl

/-- When every fetch fails (or returns a falsy empty item), the loop
appends nothing and writes no header. -/
theorem detailLoop_all_fail (fetch : String → Option DRecord) (fileExists : Bool)
    (hfail : ∀ c, fetch c = none ∨ fetch c = some []) :
    ∀ l writer, detailLoop fetch fileExists l writer
      = { lines := [], wroteHeader := false } := by
  intro l
  induction l with
  | nil => intro writer; rfl
  | cons code rest ih =>
    intro writer
    rcases hfail code with h | h
    · simp only [detailLoop, h]
      exact ih writer
    · simp only [detailLoop, h, List.isEmpty, if_true]
      exact ih writer

/-- When the output file pre-existed, the loop never writes a header
line, whatever the fetch oracle returns. -/
theorem detailLoop_no_header (fetch : String → Option DRecord) :
    ∀ l writer, (detailLoop fetch true l writer).wroteHeader = false := by
  intro l
  induction l with
  | nil => intro writer; rfl
  | cons code rest ih =>
    intro writer
    cases hf : fetch code with
    | none =>
      simp only [detailLoop, hf]
      exact ih writer
    | some r =>
      by_cases he : r.isEmpty
      · simp only [detailLoop, hf, he, if_true]
        exact ih writer
      · have hee : r.isEmpty = false := by simpa using he
        cases writer with
        | some fieldnames =>
          simp only [detailLoop, hf, hee, Bool.false_eq_true, if_false]
          cases htw : tryWriteRow fieldnames r with
          | none =>
            simp only [htw]
            exact ih (some fieldnames)
          | some cells =>
            simp only [htw]
            exact ih (some fieldnames)
        | none =>
          simp only [detailLoop, hf, hee, Bool.false_eq_true, if_false]
          cases htw : tryWriteRow (recordKeys r) r with
          | none =>
            simp only [htw]
            simpa using ih (some (recordKeys r))
          | some cells =>
            simp only [htw]
            simpa using ih (some (recordKeys r))

/-- C10 (amended): when `apt_detail.csv` does not exist, at least one
unprocessed identifier exists (the run reaches the fetch loop) and no
fetch succeeds, the run still creates `apt_detail.csv` as an empty
zero-line file with no header; and every run starting with an existing
`apt_detail.csv` — of any content — appends and never writes a header
line to it. -/
theorem getDetailMain_creates_empty_file (fetch : String → Option DRecord)
    (limit : Option Nat) (codes : List String) (hne : codes ≠ [])
    (hfail : ∀ c, fetch c = none ∨ fetch c = some []) :
    (getDetailMain fetch limit (some codes) none).file = some [] ∧
    (getDetailMain fetch limit (some codes) none).wroteHeader = false ∧
    (getDetailMain fetch limit (some codes) none).openedOutput = true ∧
    (∀ (fetch2 : String → Option DRecord) (limit2 : Option Nat)
        (codes2 : List String) (f : CsvFile),
      (getDetailMain fetch2 limit2 (some codes2) (some f)).wroteHeader = false) := by
  have hfilter : codes.filter (fun c => !((([] : List String)).contains c)) = codes := by
    simp
  have hloop := detailLoop_all_fail fetch false hfail
  refine ⟨?_, ?_, ?_, ?_⟩
  · simp [getDetailMain, processedOf, hfilter, hne, hloop]
  · simp [getDetailMain, processedOf, hfilter, hne, hloop]
  · simp [getDetailMain, processedOf, hfilter, hne, hloop]
  · intro fetch2 limit2 codes2 f
    cases hp : readProcessed f with
    | none => simp [getDetailMain, processedOf, hp]
    | some procs =>
      simp only [getDetailMain, processedOf, hp]
      by_cases hemp : (codes2.filter (fun x => !(procs.contains x))).isEmpty
      · rw [if_pos hemp]
      · rw [if_neg hemp]
        dsimp only
        exact detailLoop_no_header fetch2 _ none

theorem getDetailMain_creates_empty_file_witness :
    (getDetailMain (fun _ => none) none (some ["A"]) none).file = some [] ∧
    (getDetailMain (fun _ => none) none (some ["A"]) none).wroteHeader = false ∧
    (getDetailMain (fun _ => none) none (some ["A"]) none).openedOutput = true ∧
    (∀ (fetch2 : String → Option DRecord) (limit2 : Option Nat)
        (codes2 : List String) (f : CsvFile),
      (getDetailMain fetch2 limit2 (some codes2) (some f)).wroteHeader = false) :=
  getDetailMain_creates_empty_file (fun _ => none) none ["A"] (by decide)
    (fun _ => Or.inl rfl)

/-- C10 (counterexample): with an empty `apt_list.csv`, no detail fetch
succeeds (none is attempted) and `apt_detail.csv` does not pre-exist,
yet the run returns before the output file is ever opened, so the file
is not created. -/
theorem getDetailMain_creates_empty_file_counterexample :
    (getDetailMain (fun _ => none) none (some []) none).file = none := by
  decide

end AptCrawl
